import Mathlib

/-!
Shallow embedding of the LINE ride-share bot `app.py` (the `gggg-main`
variant, which carries origin/destination coordinates and the
logistic-regression matcher; the `gayP-main` variant shares the dialogue
control flow of `handle_message` verbatim).

Python strings are modelled as lists of unicode characters (`PyStr`), and
the Python string operations the program uses (`in`, `startswith`,
`split`, `strip`, `replace`, `int`) are reimplemented on that type with
Python semantics.  The SQLite table `ride_records` is an append-only
list of `RideRecord`; the global dict `user_states` is an association
list.  A Python exception escaping `handle_message` is the `Outcome.exn`
constructor (the webhook wrapper swallows it, so no reply is sent and the
mutations performed before the raise point are kept).
-/

/-- Python strings as lists of unicode code points. -/
abbrev PyStr := List Char

/-- Character-list form of a Lean string literal. -/
def pyLit (s : String) : PyStr := s.data

/-- Python `hay.startswith(needle)` on the character-list model. -/
def pyStartsWith : PyStr → PyStr → Bool
  | [], _ => true
  | _ :: _, [] => false
  | a :: as, b :: bs => decide (a = b) && pyStartsWith as bs

/-- Python substring containment `needle in hay`. -/
def pyIn (needle : PyStr) : PyStr → Bool
  | [] => decide (needle = [])
  | c :: t => pyStartsWith needle (c :: t) || pyIn needle t

/-- The whitespace predicate used by the Python `str.strip()`. -/
def pyWS (c : Char) : Bool := c.isWhitespace

/-- Leading-whitespace removal (`str.lstrip()`). -/
def pyTrimLeft (l : PyStr) : PyStr := l.dropWhile pyWS

/-- Trailing-whitespace removal (`str.rstrip()`). -/
def pyTrimRight (l : PyStr) : PyStr := (l.reverse.dropWhile pyWS).reverse

/-- Python `str.strip()`. -/
def pyTrim (l : PyStr) : PyStr := pyTrimRight (pyTrimLeft l)

/-- Python `s.split(sep)` for a one-character separator (the program only
splits on `"到"` and `":"`, both single characters). -/
def splitOnChar (sep : Char) : PyStr → List PyStr
  | [] => [[]]
  | c :: cs =>
    if c = sep then [] :: splitOnChar sep cs
    else
      match splitOnChar sep cs with
      | [] => [[c]]
      | h :: t => (c :: h) :: t

/-- Fuel-indexed worker for `pyRemoveAll`; fuel `l.length` always
suffices because each step consumes at least one character. -/
def pyRemoveAllF (p : PyStr) : Nat → PyStr → PyStr
  | _, [] => []
  | 0, l => l
  | fuel + 1, c :: cs =>
    if pyStartsWith p (c :: cs) && !(decide (p = [])) then
      pyRemoveAllF p fuel (List.drop p.length (c :: cs))
    else c :: pyRemoveAllF p fuel cs

/-- Python `s.replace(p, "")`: remove every (leftmost, non-overlapping)
occurrence of `p`. -/
def pyRemoveAll (p l : PyStr) : PyStr := pyRemoveAllF p l.length l

/-- Base-10 digit-string value; `none` mirrors `int` raising `ValueError`. -/
def digitsVal (l : PyStr) : Option Nat :=
  if l ≠ [] ∧ l.all Char.isDigit then
    some (l.foldl (fun a c => a * 10 + (c.toNat - 48)) 0)
  else none

/-- Python `int(s)`: surrounding whitespace, an optional sign, then
base-10 digits; `none` when `int` would raise. -/
def pyInt (s : PyStr) : Option Int :=
  match pyTrim s with
  | '-' :: ds => (digitsVal ds).map (fun n => -(n : Int))
  | '+' :: ds => (digitsVal ds).map (fun n => (n : Int))
  | ds => (digitsVal ds).map (fun n => (n : Int))

/-- Evaluation of `sum(int(x) * 60**i for i, x in enumerate(reversed(t.split(":"))))`
from `app.py`; `none` when some component makes `int` raise. -/
def timeValue (t : PyStr) : Option Int := do
  let vals ← ((splitOnChar ':' t).reverse).mapM pyInt
  return (vals.enum.foldl (fun acc p => acc + p.2 * (60 : Int) ^ p.1) 0)

/-- Computation `time_diff = abs(user_time - match_time_value) // 60` from `app.py`. -/
def py_time_diff (a b : Int) : Nat := (a - b).natAbs / 60

/-- The per-user in-progress reservation dict stored in `user_states`;
optional fields mirror keys that may be absent. -/
structure Draft where
  origin : PyStr
  destination : PyStr
  origin_lat : Int
  origin_lon : Int
  dest_lat : Int
  dest_lon : Int
  ride_type : Option PyStr
  time : Option PyStr
  payment : Option PyStr
deriving DecidableEq

/-- One row of the `ride_records` table. -/
structure RideRecord where
  id : Nat
  user_id : PyStr
  origin : PyStr
  destination : PyStr
  ride_type : PyStr
  time : PyStr
  payment : PyStr
  origin_lat : Int
  origin_lon : Int
  dest_lat : Int
  dest_lon : Int
deriving DecidableEq

/-- Global mutable state of the process: the `user_states` dict and the
`ride_records` table (rows in insertion order, as `fetchall` returns). -/
structure BotState where
  user_states : List (PyStr × Draft)
  records : List RideRecord
deriving DecidableEq

/-- Result of one `handle_message` call: a reply together with the new
state, or an escaped exception (no reply, mutations made so far kept). -/
inductive Outcome where
  | ok (st : BotState) (reply : PyStr)
  | exn (st : BotState)
deriving DecidableEq

/-- Read access `user_states.get(uid)` on the association-list model. -/
def getState (m : List (PyStr × Draft)) (uid : PyStr) : Option Draft :=
  match m with
  | [] => none
  | (k, v) :: t => if k = uid then some v else getState t uid

/-- Write access storing a draft under a user id (insert or overwrite). -/
def setState (m : List (PyStr × Draft)) (uid : PyStr) (d : Draft) :
    List (PyStr × Draft) :=
  match m with
  | [] => [(uid, d)]
  | (k, v) :: t => if k = uid then (uid, d) :: t else (k, v) :: setState t uid d

/-- Removal `user_states.pop(uid, None)`. -/
def delState (m : List (PyStr × Draft)) (uid : PyStr) : List (PyStr × Draft) :=
  match m with
  | [] => []
  | (k, v) :: t => if k = uid then t else (k, v) :: delState t uid

/-- Function `get_coordinates` from `app.py`: fixed three-entry lookup table with
the `(0, 0)` default for unknown names (`dict.get` never raises).  The
source's decimal float literals all have four fractional digits; they are
modelled exactly as integers in units of `10⁻⁴` degrees
(`25.0478 ↦ 250478`). -/
def get_coordinates (location : PyStr) : Int × Int :=
  if location = pyLit "台北車站" then (250478, 1215170)
  else if location = pyLit "松山機場" then (250634, 1215520)
  else if location = pyLit "台大" then (250169, 1215346)
  else (0, 0)

/-- Modelled from the spec: `geodesic(a, b).km` is computed by the
external `geopy` library (floating point, not in the source).  The model
is a nonnegative integer surrogate in units of `10⁻⁴` km (≈111 km per
degree of coordinate difference) that is zero exactly on identical
coordinate pairs — the only property of the great-circle distance the
claims depend on. -/
def specDist (a b : Int × Int) : Int := 111 * (|a.1 - b.1| + |a.2 - b.2|)

/-- Modelled from the spec: the decision function of the logistic
regression trained once at startup by the external `sklearn` library
(its fitted parameters are not in the source).  The distance argument is
in the `10⁻⁴` km units of `specDist`.  This decidable stand-in agrees
with every pinned behaviour point: the four training labels
`(5.0,10,1)->1, (2.0,5,0)->0, (1.0,2,1)->1, (10.0,30,0)->0` and the
§8 scenario of the spec `(0.5,1,1)->1`. -/
def specPredict (dKm : Int) (tDiff : Nat) (paySame : Bool) : Bool :=
  paySame && decide (dKm ≤ 50000) && decide (tDiff ≤ 10)

def sToSep : Char := '到'
def sReserve : PyStr := pyLit "我預約"
def sPay : PyStr := pyLit "我使用"
def sQuery : PyStr := pyLit "查詢我的預約"
def sPooled : PyStr := pyLit "共乘"
def sSolo : PyStr := pyLit "不共乘"
def sChoosePooled : PyStr := pyLit "我選擇共乘"
def sChooseSolo : PyStr := pyLit "我不共乘"
def sMatchNotice : PyStr := pyLit "🚨 發現共乘對象！你和另一位使用者搭乘相同班次！"

/-- Query selecting the rows with a different user id and ride_type 共乘
from `ride_records`, in scan (insertion) order — the candidate pool of
both match loops. -/
def pooledOthers (records : List RideRecord) (uid : PyStr) : List RideRecord :=
  records.filter (fun r => !(decide (r.user_id = uid)) && decide (r.ride_type = sPooled))

/-- The completion-time match loop (`for match in potential_matches` in
the `我使用` branch): parse the stored time of the candidate (raising on
malformed strings), build the feature vector, ask the classifier, and
stop at the first positive prediction. -/
def matchLoop (userTime : Int) (uCoord : Int × Int) (payment : PyStr) :
    List RideRecord → Except Unit Bool
  | [] => .ok false
  | m :: rest =>
    match timeValue m.time with
    | none => .error ()
    | some mt =>
      let distance := specDist uCoord (m.origin_lat, m.origin_lon)
      let time_diff := py_time_diff userTime mt
      let payment_same := decide (payment = m.payment)
      if specPredict distance time_diff payment_same then .ok true
      else matchLoop userTime uCoord payment rest

/-- The match loop of the `查詢我的預約` branch (identical features, but
coordinates come from `get_coordinates` on the stored origin name and the
the `user_id` of the matching candidate is returned). -/
def matchLoopQuery (userTime : Int) (uCoord : Int × Int) (payment : PyStr) :
    List RideRecord → Except Unit (Option PyStr)
  | [] => .ok none
  | m :: rest =>
    let mCoord := get_coordinates m.origin
    match timeValue m.time with
    | none => .error ()
    | some mt =>
      let distance := specDist uCoord mCoord
      let time_diff := py_time_diff userTime mt
      let payment_same := decide (payment = m.payment)
      if specPredict distance time_diff payment_same then .ok (some m.user_id)
      else matchLoopQuery userTime uCoord payment rest

def rRouteFormat : PyStr := pyLit "請輸入格式為『出發地 到 目的地』"
def rNeedRoute : PyStr := pyLit "請先輸入『出發地 到 目的地』"
def rNeedRouteAndMode : PyStr := pyLit "請先輸入『出發地 到 目的地』並選擇共乘狀態"
def rNeedEarlierSteps : PyStr := pyLit "請先完成前面的預約步驟"
def rFallback : PyStr := pyLit "請輸入格式為『出發地 到 目的地』的訊息"
def rNoRecords : PyStr := pyLit "你目前沒有預約紀錄。"
def rAskTime : PyStr := pyLit "請輸入你想預約的時間，例如：我預約 15:30"

def routeReply (origin dest : PyStr) : PyStr :=
  pyLit "🚕 你要從 " ++ origin ++ pyLit " 到 " ++ dest ++ pyLit "\n請選擇是否共乘："

def timeReply (t : PyStr) : PyStr :=
  pyLit "🕐 你選擇的時間是 " ++ t ++ pyLit "\n請選擇付款方式："

def routeUrl (origin dest : PyStr) : PyStr :=
  pyLit "https://www.google.com/maps/dir/" ++ origin ++ pyLit "/" ++ dest

def completionReply (origin dest ride time payment : PyStr) (found : Bool) : PyStr :=
  pyLit "🎉 預約完成！\n🛫 出發地：" ++ origin ++
  pyLit "\n🛬 目的地：" ++ dest ++
  pyLit "\n🚘 共乘狀態：" ++ ride ++
  pyLit "\n🕐 預約時間：" ++ time ++
  pyLit "\n💳 付款方式：" ++ payment ++
  (if found then pyLit "\n" ++ sMatchNotice else []) ++
  pyLit "\n\n📍 路線預覽：\n" ++ routeUrl origin dest ++
  pyLit "\n\n👉 想再預約，請再輸入『出發地 到 目的地』"

def queryStatusReply (origin dest ride time payment : PyStr) (found : Bool) : PyStr :=
  pyLit "📋 你最近的預約如下：\n🛫 出發地：" ++ origin ++
  pyLit "\n🛬 目的地：" ++ dest ++
  pyLit "\n🚘 共乘狀態：" ++ ride ++
  pyLit "\n🕐 預約時間：" ++ time ++
  pyLit "\n💳 付款方式：" ++ payment ++
  pyLit "\n👥 共乘配對狀態：" ++
  (if found then pyLit "✅ 已找到共乘對象！" else pyLit "⏳ 尚未有共乘對象") ++
  pyLit "\n"

/-- The fresh draft created by the route branch. -/
def routeDraft (origin dest : PyStr) : Draft :=
  { origin := origin, destination := dest,
    origin_lat := (get_coordinates origin).1, origin_lon := (get_coordinates origin).2,
    dest_lat := (get_coordinates dest).1, dest_lon := (get_coordinates dest).2,
    ride_type := none, time := none, payment := none }

/-- The route-branch guard of `handle_message`:
`"到" in user_input and "我預約" not in user_input and "我使用" not in user_input`. -/
def isRouteInput (input : PyStr) : Bool :=
  pyIn [sToSep] input && !(pyIn sReserve input) && !(pyIn sPay input)

/-- The `查詢我的預約` branch. -/
def queryBranch (uid : PyStr) (st : BotState) : Outcome :=
  match (st.records.filter (fun r => decide (r.user_id = uid))).getLast? with
  | none => .ok st rNoRecords
  | some latest =>
    match timeValue latest.time with
    | none => .exn st
    | some ut =>
      match matchLoopQuery ut (get_coordinates latest.origin) latest.payment
          (pooledOthers st.records uid) with
      | .error _ => .exn st
      | .ok m =>
        .ok st (queryStatusReply latest.origin latest.destination latest.ride_type
          latest.time latest.payment m.isSome)

/-- The route branch: split on `"到"`, two parts expected (a `ValueError`
from the unpacking is answered with the format prompt), coordinates
resolved, and the draft of the user unconditionally overwritten. -/
def routeBranch (uid input : PyStr) (st : BotState) : Outcome :=
  match splitOnChar sToSep input with
  | [a, b] =>
    let origin := pyTrim a
    let dest := pyTrim b
    .ok ⟨setState st.user_states uid (routeDraft origin dest), st.records⟩
      (routeReply origin dest)
  | _ => .ok st rRouteFormat

/-- The mode-choice branch (`user_input in ["我選擇共乘", "我不共乘"]`):
`ride_type = "共乘" if "共乘" in user_input else "不共乘"`. -/
def modeBranch (uid input : PyStr) (st : BotState) : Outcome :=
  let ride_type := if pyIn sPooled input then sPooled else sSolo
  match getState st.user_states uid with
  | none => .ok st rNeedRoute
  | some d =>
    .ok ⟨setState st.user_states uid { d with ride_type := some ride_type }, st.records⟩
      rAskTime

/-- The `我預約` branch: the stored time is the input with every
occurrence of `"我預約"` removed, then stripped; no format validation. -/
def timeBranch (uid input : PyStr) (st : BotState) : Outcome :=
  let time := pyTrim (pyRemoveAll sReserve input)
  match getState st.user_states uid with
  | none => .ok st rNeedRouteAndMode
  | some d =>
    match d.ride_type with
    | none => .ok st rNeedRouteAndMode
    | some _ =>
      .ok ⟨setState st.user_states uid { d with time := some time }, st.records⟩
        (timeReply time)

/-- The `我使用` completion branch.  Mutation order follows the source:
the `payment` key of the draft is set first; the INSERT argument tuple reads
`data["ride_type"]` (a `KeyError` if absent); `insertFails` models the
INSERT raising; the candidate scan runs after the commit; the draft is
popped only when everything before it succeeded. -/
def payBranch (insertFails : Bool) (uid input : PyStr) (st : BotState) : Outcome :=
  let payment := pyTrim (pyRemoveAll sPay input)
  match getState st.user_states uid with
  | none => .ok st rNeedEarlierSteps
  | some d =>
    match d.time with
    | none => .ok st rNeedEarlierSteps
    | some dtime =>
      let states' := setState st.user_states uid { d with payment := some payment }
      match d.ride_type with
      | none => .exn ⟨states', st.records⟩
      | some rt =>
        if insertFails then .exn ⟨states', st.records⟩
        else
          let newRec : RideRecord :=
            ⟨st.records.length + 1, uid, d.origin, d.destination, rt, dtime, payment,
             d.origin_lat, d.origin_lon, d.dest_lat, d.dest_lon⟩
          let records' := st.records ++ [newRec]
          match timeValue dtime with
          | none => .exn ⟨states', records'⟩
          | some ut =>
            match matchLoop ut (d.origin_lat, d.origin_lon) payment
                (pooledOthers records' uid) with
            | .error _ => .exn ⟨states', records'⟩
            | .ok found =>
              .ok ⟨delState states' uid, records'⟩
                (completionReply d.origin d.destination rt dtime payment found)

/-- Entry point `handle_message` from `app.py`: strip the inbound text, then dispatch
through the if-chain of the source in order. -/
def handle_message (insertFails : Bool) (uid text : PyStr) (st : BotState) : Outcome :=
  let input := pyTrim text
  if input = sQuery then queryBranch uid st
  else if isRouteInput input then routeBranch uid input st
  else if input = sChoosePooled ∨ input = sChooseSolo then modeBranch uid input st
  else if pyStartsWith sReserve input then timeBranch uid input st
  else if pyStartsWith sPay input then payBranch insertFails uid input st
  else .ok st rFallback

/-- Defined from the words of the spec (§4.5, for the comparison in C3):
minutes since midnight of a valid `HH:MM` string. -/
def minutesOfHHMM (s : PyStr) : Option Int :=
  match splitOnChar ':' s with
  | [h, m] =>
    match digitsVal h, digitsVal m with
    | some hh, some mm =>
      if hh < 24 ∧ mm < 60 then some ((hh : Int) * 60 + (mm : Int)) else none
    | _, _ => none
  | _ => none

/-- Defined from the words of the spec (§4.5, for the comparison in C3): the
`timeDiffMinutes` feature is the absolute difference of the two times in
minutes since midnight, with no day wraparound. -/
def specTimeDiffMinutes (s1 s2 : PyStr) : Option Nat :=
  match minutesOfHHMM s1, minutesOfHHMM s2 with
  | some a, some b => some (a - b).natAbs
  | _, _ => none

/-! ### Helper lemmas about the Python string model -/

theorem pyStartsWith_iff (p l : PyStr) : pyStartsWith p l = true ↔ ∃ r, l = p ++ r := by
  induction p generalizing l with
  | nil => simp [pyStartsWith]
  | cons a as ih =>
    cases l with
    | nil => simp [pyStartsWith]
    | cons b bs =>
      simp only [pyStartsWith, Bool.and_eq_true, decide_eq_true_eq, ih]
      constructor
      · rintro ⟨rfl, r, rfl⟩; exact ⟨r, rfl⟩
      · rintro ⟨r, h⟩
        injection h with h1 h2
        exact ⟨h1.symm, r, h2⟩

theorem pyStartsWith_append (p r : PyStr) : pyStartsWith p (p ++ r) = true :=
  (pyStartsWith_iff p _).mpr ⟨r, rfl⟩

theorem pyIn_of_pyStartsWith {p l : PyStr} (h : pyStartsWith p l = true) : pyIn p l = true := by
  cases l with
  | nil =>
    obtain ⟨r, hr⟩ := (pyStartsWith_iff p []).mp h
    have : p = [] := by
      cases p with
      | nil => rfl
      | cons a as => simp at hr
    simp [pyIn, this]
  | cons c t => simp [pyIn, h]

theorem pyIn_of_mem {c : Char} {l : PyStr} (h : c ∈ l) : pyIn [c] l = true := by
  induction l with
  | nil => simp at h
  | cons a t ih =>
    rcases List.mem_cons.mp h with h | h
    · subst h
      simp [pyIn, pyStartsWith]
    · simp [pyIn, ih h]

theorem splitOnChar_of_not_mem {c : Char} {l : PyStr} (h : c ∉ l) :
    splitOnChar c l = [l] := by
  induction l with
  | nil => rfl
  | cons a t ih =>
    have hac : ¬ a = c := fun e => h (by simp [e])
    have ht : c ∉ t := fun e => h (List.mem_cons_of_mem _ e)
    simp [splitOnChar, hac, ih ht]

theorem splitOnChar_append {c : Char} {a b : PyStr} (ha : c ∉ a) :
    splitOnChar c (a ++ c :: b) = a :: splitOnChar c b := by
  induction a with
  | nil => simp [splitOnChar]
  | cons x xs ih =>
    have hxc : ¬ x = c := fun e => ha (by simp [e])
    have hxs : c ∉ xs := fun e => ha (List.mem_cons_of_mem _ e)
    have h2 := ih hxs
    simp only [List.cons_append, splitOnChar, hxc, if_false]
    rw [show xs.append (c :: b) = xs ++ c :: b from rfl, h2]

theorem dropWhile_append_cons {p : Char → Bool} {x : Char} (hx : p x = false)
    (a b : PyStr) :
    List.dropWhile p (a ++ x :: b) = List.dropWhile p a ++ x :: b := by
  induction a with
  | nil => simp [List.dropWhile, hx]
  | cons h t ih =>
    cases hp : p h with
    | true => simp [List.dropWhile, hp, ih]
    | false => simp [List.dropWhile, hp]

theorem dropWhile_idem (p : Char → Bool) (l : PyStr) :
    List.dropWhile p (List.dropWhile p l) = List.dropWhile p l := by
  induction l with
  | nil => rfl
  | cons h t ih =>
    cases hp : p h with
    | true => simp [List.dropWhile, hp, ih]
    | false => simp [List.dropWhile, hp]

theorem pyTrimLeft_append_cons {x : Char} (hx : pyWS x = false) (a b : PyStr) :
    pyTrimLeft (a ++ x :: b) = pyTrimLeft a ++ x :: b :=
  dropWhile_append_cons hx a b

theorem pyTrimRight_append_cons {x : Char} (hx : pyWS x = false) (a b : PyStr) :
    pyTrimRight (a ++ x :: b) = a ++ x :: pyTrimRight b := by
  unfold pyTrimRight
  have h1 : (a ++ x :: b).reverse = b.reverse ++ x :: a.reverse := by simp
  rw [h1, dropWhile_append_cons hx]
  simp

theorem pyTrim_append_sep {x : Char} (hx : pyWS x = false) (a b : PyStr) :
    pyTrim (a ++ x :: b) = pyTrimLeft a ++ x :: pyTrimRight b := by
  unfold pyTrim
  rw [pyTrimLeft_append_cons hx, pyTrimRight_append_cons hx]

theorem pyTrimLeft_idem (l : PyStr) : pyTrimLeft (pyTrimLeft l) = pyTrimLeft l :=
  dropWhile_idem pyWS l

theorem pyTrimRight_idem (l : PyStr) : pyTrimRight (pyTrimRight l) = pyTrimRight l := by
  unfold pyTrimRight
  rw [List.reverse_reverse, dropWhile_idem]

theorem pyTrimRight_cons (h : Char) (t : PyStr) :
    pyTrimRight (h :: t) =
      if pyTrimRight t = [] then (if pyWS h then [] else [h]) else h :: pyTrimRight t := by
  unfold pyTrimRight
  rw [List.reverse_cons, List.dropWhile_append]
  by_cases he : List.dropWhile pyWS t.reverse = []
  · simp [he, List.dropWhile]
    by_cases hw : pyWS h <;> simp [hw]
  · simp [he]

theorem pyTrimRight_eq_nil_iff {t : PyStr} : pyTrimRight t = [] ↔ ∀ x ∈ t, pyWS x := by
  unfold pyTrimRight
  rw [List.reverse_eq_nil_iff, List.dropWhile_eq_nil_iff]
  simp

theorem pyTrimLeft_eq_nil_of_all {t : PyStr} (h : ∀ x ∈ t, pyWS x) : pyTrimLeft t = [] := by
  unfold pyTrimLeft
  rw [List.dropWhile_eq_nil_iff]
  exact h

theorem pyTrim_comm (l : PyStr) : pyTrimLeft (pyTrimRight l) = pyTrimRight (pyTrimLeft l) := by
  induction l with
  | nil => rfl
  | cons h t ih =>
    by_cases hw : pyWS h
    · rw [pyTrimRight_cons]
      by_cases he : pyTrimRight t = []
      · have hall : ∀ x ∈ t, pyWS x := pyTrimRight_eq_nil_iff.mp he
        have h1 : pyTrimLeft (h :: t) = [] :=
          pyTrimLeft_eq_nil_of_all (by intro x hx; rcases List.mem_cons.mp hx with rfl | hx
                                       · exact hw
                                       · exact hall x hx)
        simp [he, hw, h1]
        rfl
      · have h2 : pyTrimLeft (h :: t) = pyTrimLeft t := by
          unfold pyTrimLeft; simp [List.dropWhile, hw]
        simp only [he, if_false]
        have h3 : pyTrimLeft (h :: pyTrimRight t) = pyTrimLeft (pyTrimRight t) := by
          unfold pyTrimLeft; simp [List.dropWhile, hw]
        rw [h3, ih, h2]
    · have hwf : pyWS h = false := by simpa using hw
      have h2 : pyTrimLeft (h :: t) = h :: t := by
        unfold pyTrimLeft; simp [List.dropWhile, hwf]
      rw [h2, pyTrimRight_cons]
      by_cases he : pyTrimRight t = []
      · simp only [he, if_true, hwf, if_false]
        simp [pyTrimLeft, List.dropWhile, hwf]
      · simp only [he, if_false]
        have h3 : pyTrimLeft (h :: pyTrimRight t) = h :: pyTrimRight t := by
          unfold pyTrimLeft; simp [List.dropWhile, hwf]
        rw [h3]

theorem pyTrim_pyTrimLeft (l : PyStr) : pyTrim (pyTrimLeft l) = pyTrim l := by
  unfold pyTrim
  rw [pyTrimLeft_idem]

theorem pyTrim_pyTrimRight (l : PyStr) : pyTrim (pyTrimRight l) = pyTrim l := by
  unfold pyTrim
  rw [pyTrim_comm, pyTrimRight_idem]

theorem mem_of_mem_pyTrimLeft {c : Char} {l : PyStr} (h : c ∈ pyTrimLeft l) : c ∈ l :=
  (List.dropWhile_sublist pyWS).subset h

theorem mem_of_mem_pyTrimRight {c : Char} {l : PyStr} (h : c ∈ pyTrimRight l) : c ∈ l := by
  unfold pyTrimRight at h
  rw [List.mem_reverse] at h
  have := (List.dropWhile_sublist pyWS).subset h
  rwa [List.mem_reverse] at this

theorem getState_setState (m : List (PyStr × Draft)) (uid : PyStr) (d : Draft) :
    getState (setState m uid d) uid = some d := by
  induction m with
  | nil => simp [setState, getState]
  | cons kv t ih =>
    obtain ⟨k, v⟩ := kv
    by_cases hk : k = uid
    · simp [setState, getState, hk]
    · simp [setState, getState, hk, ih]

theorem pyRemoveAllF_no_occ {p : PyStr} :
    ∀ (fuel : Nat) (l : PyStr), pyIn p l = false → pyRemoveAllF p fuel l = l := by
  intro fuel
  induction fuel with
  | zero => intro l _; cases l <;> rfl
  | succ n ih =>
    intro l hl
    cases l with
    | nil => rfl
    | cons c cs =>
      simp only [pyIn, Bool.or_eq_false_iff] at hl
      simp [pyRemoveAllF, hl.1, ih cs hl.2]

theorem pyRemoveAll_cons_append {a : Char} {as r : PyStr}
    (hno : pyIn (a :: as) r = false) :
    pyRemoveAll (a :: as) ((a :: as) ++ r) = r := by
  unfold pyRemoveAll
  show pyRemoveAllF (a :: as) ((as ++ r).length + 1) (a :: (as ++ r)) = r
  rw [pyRemoveAllF]
  have hpre : pyStartsWith (a :: as) (a :: (as ++ r)) = true := pyStartsWith_append (a :: as) r
  rw [hpre]
  simp only [decide_eq_true_eq, Bool.true_and, Bool.not_eq_true]
  rw [if_pos (by simp)]
  rw [show List.drop (a :: as).length (a :: (as ++ r)) = r from List.drop_left (a :: as) r]
  exact pyRemoveAllF_no_occ _ _ hno

theorem pyRemoveAll_of_single_occ {p r : PyStr} (hp : p ≠ [])
    (hno : pyIn p r = false) : pyRemoveAll p (p ++ r) = r := by
  cases p with
  | nil => exact absurd rfl hp
  | cons a as => exact pyRemoveAll_cons_append hno

theorem pyStartsWith_sReserve_of_sPay {l : PyStr} (h : pyStartsWith sPay l = true) :
    pyStartsWith sReserve l = false := by
  obtain ⟨r, rfl⟩ := (pyStartsWith_iff _ _).mp h
  rfl

theorem handle_message_time_dispatch {ins : Bool} {uid text : PyStr} {st : BotState}
    (h : pyStartsWith sReserve (pyTrim text) = true) :
    handle_message ins uid text st = timeBranch uid (pyTrim text) st := by
  have hq : ¬ pyTrim text = sQuery := by
    intro heq; rw [heq] at h; exact absurd h (by decide)
  have hr : ¬ isRouteInput (pyTrim text) = true := by
    simp [isRouteInput, pyIn_of_pyStartsWith h]
  have hm : ¬ (pyTrim text = sChoosePooled ∨ pyTrim text = sChooseSolo) := by
    rintro (heq | heq) <;> rw [heq] at h <;> exact absurd h (by decide)
  simp only [handle_message]
  rw [if_neg hq, if_neg hr, if_neg hm, if_pos h]

theorem handle_message_pay_dispatch {ins : Bool} {uid text : PyStr} {st : BotState}
    (h : pyStartsWith sPay (pyTrim text) = true) :
    handle_message ins uid text st = payBranch ins uid (pyTrim text) st := by
  have hq : ¬ pyTrim text = sQuery := by
    intro heq; rw [heq] at h; exact absurd h (by decide)
  have hr : ¬ isRouteInput (pyTrim text) = true := by
    simp [isRouteInput, pyIn_of_pyStartsWith h]
  have hm : ¬ (pyTrim text = sChoosePooled ∨ pyTrim text = sChooseSolo) := by
    rintro (heq | heq) <;> rw [heq] at h <;> exact absurd h (by decide)
  have hres : pyStartsWith sReserve (pyTrim text) = false := pyStartsWith_sReserve_of_sPay h
  simp only [handle_message]
  rw [if_neg hq, if_neg hr, if_neg hm, if_neg (by simp [hres]), if_pos h]

theorem pyIn_iff_infixOf {p l : PyStr} : pyIn p l = true ↔ p <:+: l := by
  induction l with
  | nil =>
    simp only [pyIn, decide_eq_true_eq]
    constructor
    · rintro rfl; exact List.infix_refl []
    · intro h; exact List.eq_nil_of_infix_nil h
  | cons c t ih =>
    simp only [pyIn, Bool.or_eq_true, ih]
    rw [List.infix_cons_iff]
    constructor
    · rintro (h | h)
      · left
        obtain ⟨r, hr⟩ := (pyStartsWith_iff _ _).mp h
        exact ⟨r, hr.symm⟩
      · right; exact h
    · rintro (⟨r, hr⟩ | h)
      · left; exact (pyStartsWith_iff _ _).mpr ⟨r, hr.symm⟩
      · right; exact h

theorem pyIn_false_of_infix {p l l' : PyStr} (h : l' <:+: l)
    (hfalse : pyIn p l = false) : pyIn p l' = false := by
  by_contra hne
  have : pyIn p l' = true := by
    cases hx : pyIn p l' with
    | true => rfl
    | false => exact absurd hx hne
  have := pyIn_iff_infixOf.mp this
  have := pyIn_iff_infixOf.mpr (this.trans h)
  rw [hfalse] at this
  exact Bool.false_ne_true this

theorem pyTrimLeft_suffix (l : PyStr) : pyTrimLeft l <:+ l := by
  induction l with
  | nil => exact List.suffix_refl []
  | cons h t ih =>
    unfold pyTrimLeft at *
    cases hp : pyWS h with
    | true => simpa [List.dropWhile, hp] using ih.trans (List.suffix_cons h t)
    | false => simp [List.dropWhile, hp]

theorem pyTrimRight_prefixOf (l : PyStr) : pyTrimRight l <+: l := by
  unfold pyTrimRight
  have h := pyTrimLeft_suffix l.reverse
  unfold pyTrimLeft at h
  obtain ⟨t, ht⟩ := h
  refine ⟨t.reverse, ?_⟩
  have := congrArg List.reverse ht
  simpa using this

theorem pyTrim_infixOf (l : PyStr) : pyTrim l <:+: l := by
  unfold pyTrim
  exact ((pyTrimRight_prefixOf (pyTrimLeft l)).isInfix).trans (pyTrimLeft_suffix l).isInfix

theorem sToSep_not_ws : pyWS sToSep = false := by decide

theorem handle_message_route_dispatch {ins : Bool} {uid text : PyStr} {st : BotState}
    (hmem : sToSep ∈ pyTrim text)
    (h1 : pyIn sReserve (pyTrim text) = false)
    (h2 : pyIn sPay (pyTrim text) = false) :
    handle_message ins uid text st = routeBranch uid (pyTrim text) st := by
  have hq : ¬ pyTrim text = sQuery := by
    intro heq; rw [heq] at hmem; exact absurd hmem (by decide)
  have hroute : isRouteInput (pyTrim text) = true := by
    simp [isRouteInput, pyIn_of_mem hmem, h1, h2]
  simp only [handle_message]
  rw [if_neg hq, if_pos hroute]

theorem route_general {ins : Bool} {uid a b : PyStr} {st : BotState}
    (ha : sToSep ∉ a) (hb : sToSep ∉ b)
    (h1 : pyIn sReserve (a ++ sToSep :: b) = false)
    (h2 : pyIn sPay (a ++ sToSep :: b) = false) :
    handle_message ins uid (a ++ sToSep :: b) st =
      .ok ⟨setState st.user_states uid (routeDraft (pyTrim a) (pyTrim b)), st.records⟩
        (routeReply (pyTrim a) (pyTrim b)) := by
  have hdec : pyTrim (a ++ sToSep :: b) = pyTrimLeft a ++ sToSep :: pyTrimRight b :=
    pyTrim_append_sep sToSep_not_ws a b
  have hmem : sToSep ∈ pyTrim (a ++ sToSep :: b) := by
    rw [hdec]; exact List.mem_append_right _ (List.mem_cons_self _ _)
  have h1' : pyIn sReserve (pyTrim (a ++ sToSep :: b)) = false :=
    pyIn_false_of_infix (pyTrim_infixOf _) h1
  have h2' : pyIn sPay (pyTrim (a ++ sToSep :: b)) = false :=
    pyIn_false_of_infix (pyTrim_infixOf _) h2
  rw [handle_message_route_dispatch hmem h1' h2']
  unfold routeBranch
  rw [hdec]
  have hsplit : splitOnChar sToSep (pyTrimLeft a ++ sToSep :: pyTrimRight b) =
      [pyTrimLeft a, pyTrimRight b] := by
    rw [splitOnChar_append (fun hx => ha (mem_of_mem_pyTrimLeft hx)),
        splitOnChar_of_not_mem (fun hx => hb (mem_of_mem_pyTrimRight hx))]
  rw [hsplit]
  simp only [pyTrim_pyTrimLeft, pyTrim_pyTrimRight]

/-! ### Claim theorems -/

set_option maxRecDepth 4096

/-- C1: in state HAVE_ROUTE the pooled choice stores ride_type 共乘, but the
solo choice 我不共乘 ALSO stores 共乘 (POOLED), because the source computes
`ride_type = "共乘" if "共乘" in user_input else "不共乘"` and `"共乘"` is a
substring of `"我不共乘"`; the persisted mode therefore does not equal the
selected option for the solo choice. -/
theorem C1_solo_choice_stores_pooled :
    handle_message false (pyLit "u1") sChooseSolo
        ⟨[(pyLit "u1", routeDraft (pyLit "台北車站") (pyLit "台大"))], []⟩ =
      .ok ⟨[(pyLit "u1",
        { routeDraft (pyLit "台北車站") (pyLit "台大") with ride_type := some sPooled })], []⟩
        rAskTime
    ∧ handle_message false (pyLit "u1") sChoosePooled
        ⟨[(pyLit "u1", routeDraft (pyLit "台北車站") (pyLit "台大"))], []⟩ =
      .ok ⟨[(pyLit "u1",
        { routeDraft (pyLit "台北車站") (pyLit "台大") with ride_type := some sPooled })], []⟩
        rAskTime
    ∧ sPooled ≠ sSolo := by decide

/-- C2: a newly finalized record whose mode is 不共乘 (SOLO) is still matched
against pooled candidates — the completion-time scan has no guard on the new
own mode of the record — and the confirmation reply carries the compatibility
notice. -/
theorem C2_solo_record_still_matches :
    handle_message false (pyLit "u1") (pyLit "我使用 現金")
        ⟨[(pyLit "u1", ⟨pyLit "台北車站", pyLit "台大", 250478, 1215170, 250169, 1215346,
            some sSolo, some (pyLit "08:00"), none⟩)],
         [⟨1, pyLit "u2", pyLit "台北車站", pyLit "台大", sPooled, pyLit "08:00",
            pyLit "現金", 250478, 1215170, 250169, 1215346⟩]⟩ =
      .ok ⟨[],
        [⟨1, pyLit "u2", pyLit "台北車站", pyLit "台大", sPooled, pyLit "08:00",
            pyLit "現金", 250478, 1215170, 250169, 1215346⟩,
         ⟨2, pyLit "u1", pyLit "台北車站", pyLit "台大", sSolo, pyLit "08:00",
            pyLit "現金", 250478, 1215170, 250169, 1215346⟩]⟩
        (completionReply (pyLit "台北車站") (pyLit "台大") sSolo (pyLit "08:00")
          (pyLit "現金") true)
    ∧ pyIn sMatchNotice
        (completionReply (pyLit "台北車站") (pyLit "台大") sSolo (pyLit "08:00")
          (pyLit "現金") true) = true
    ∧ sSolo ≠ sPooled := by decide

/-- C3: for the valid HH:MM times 15:30 and 15:00 the code hands the
classifier `abs(user_time - match_time_value) // 60 = 0` (whole hours, since
`user_time` is already in minutes), while the `timeDiffMinutes` of the spec
is 30; the own `# 分鐘` comment of the code documents minutes. -/
theorem C3_time_diff_feature_is_hours_not_minutes :
    timeValue (pyLit "15:30") = some 930
    ∧ timeValue (pyLit "15:00") = some 900
    ∧ py_time_diff 930 900 = 0
    ∧ specTimeDiffMinutes (pyLit "15:30") (pyLit "15:00") = some 30
    ∧ (0 : Nat) ≠ 30 := by decide

/-- C4 counterexample: when the repository insert raises (`insertFails`),
the handler aborts with the draft STILL in the Session Store (its payment
field freshly set), the repository unchanged, and no reply — so the claimed
unconditional clearing and failed-reservation reply are both false. -/
theorem C4_counterexample_insert_failure_keeps_draft :
    handle_message true (pyLit "u1") (pyLit "我使用 現金")
        ⟨[(pyLit "u1", ⟨pyLit "台北車站", pyLit "台大", 250478, 1215170, 250169, 1215346,
            some sPooled, some (pyLit "08:00"), none⟩)], []⟩ =
      .exn ⟨[(pyLit "u1", ⟨pyLit "台北車站", pyLit "台大", 250478, 1215170, 250169, 1215346,
            some sPooled, some (pyLit "08:00"), some (pyLit "現金")⟩)], []⟩
    ∧ getState [(pyLit "u1", ⟨pyLit "台北車站", pyLit "台大", 250478, 1215170, 250169,
          1215346, some sPooled, some (pyLit "08:00"), some (pyLit "現金")⟩)]
        (pyLit "u1") ≠ none := by decide

/-- C4 (amended): the draft is NOT cleared when the repository insert
raises — the exception propagates out of `handle_message`, the draft
remains in the Session Store (now with its payment field set), the
repository is unchanged, and no failed-reservation reply is sent. -/
theorem C4_insert_failure_leaves_draft_stuck
    (ins : Bool) (uid text : PyStr) (st : BotState) (d : Draft) (t rt : PyStr)
    (hins : ins = true)
    (hpre : pyStartsWith sPay (pyTrim text) = true)
    (hd : getState st.user_states uid = some d)
    (ht : d.time = some t) (hrt : d.ride_type = some rt) :
    handle_message ins uid text st =
      .exn ⟨setState st.user_states uid
              { d with payment := some (pyTrim (pyRemoveAll sPay (pyTrim text))) },
            st.records⟩
    ∧ getState (setState st.user_states uid
          { d with payment := some (pyTrim (pyRemoveAll sPay (pyTrim text))) }) uid =
        some { d with payment := some (pyTrim (pyRemoveAll sPay (pyTrim text))) } := by
  subst hins
  obtain ⟨o, de, olat, olon, dlat, dlon, drt, dtm, dpay⟩ := d
  replace ht : dtm = some t := ht
  replace hrt : drt = some rt := hrt
  subst ht; subst hrt
  refine ⟨?_, getState_setState _ _ _⟩
  rw [handle_message_pay_dispatch hpre]
  simp only [payBranch, hd]
  rw [if_pos trivial]

/-- C4 witness. -/
theorem C4_insert_failure_leaves_draft_stuck_witness :
    handle_message true (pyLit "w4") (pyLit "我使用 LINE Pay")
        ⟨[(pyLit "w4", ⟨pyLit "台大", pyLit "松山機場", 250169, 1215346, 250634, 1215520,
            some sPooled, some (pyLit "09:15"), none⟩)], []⟩ =
      .exn ⟨[(pyLit "w4", ⟨pyLit "台大", pyLit "松山機場", 250169, 1215346, 250634, 1215520,
            some sPooled, some (pyLit "09:15"),
            some (pyTrim (pyRemoveAll sPay (pyTrim (pyLit "我使用 LINE Pay"))))⟩)], []⟩ := by
  have h := C4_insert_failure_leaves_draft_stuck true (pyLit "w4") (pyLit "我使用 LINE Pay")
    ⟨[(pyLit "w4", ⟨pyLit "台大", pyLit "松山機場", 250169, 1215346, 250634, 1215520,
        some sPooled, some (pyLit "09:15"), none⟩)], []⟩
    ⟨pyLit "台大", pyLit "松山機場", 250169, 1215346, 250634, 1215520,
        some sPooled, some (pyLit "09:15"), none⟩
    (pyLit "09:15") sPooled rfl (by decide) (by decide) rfl rfl
  exact h.1

theorem pooledOthers_append_self (l : List RideRecord) (r : RideRecord) (uid : PyStr)
    (h : r.user_id = uid) : pooledOthers (l ++ [r]) uid = pooledOthers l uid := by
  simp [pooledOthers, List.filter_append, h]

/-- C5 counterexample: with a pooled candidate whose stored time is the
unparseable string "soon", the completion step raises inside the scan —
the record is inserted but NO confirmation reply is sent (and the draft is
not cleared), contradicting "treat as no match, reply still sent". -/
theorem C5_counterexample_unparseable_time_aborts :
    handle_message false (pyLit "u1") (pyLit "我使用 現金")
        ⟨[(pyLit "u1", ⟨pyLit "台北車站", pyLit "台大", 250478, 1215170, 250169, 1215346,
            some sPooled, some (pyLit "08:00"), none⟩)],
         [⟨1, pyLit "u2", pyLit "台北車站", pyLit "台大", sPooled, pyLit "soon",
            pyLit "現金", 250478, 1215170, 250169, 1215346⟩]⟩ =
      .exn ⟨[(pyLit "u1", ⟨pyLit "台北車站", pyLit "台大", 250478, 1215170, 250169, 1215346,
            some sPooled, some (pyLit "08:00"), some (pyLit "現金")⟩)],
        [⟨1, pyLit "u2", pyLit "台北車站", pyLit "台大", sPooled, pyLit "soon",
            pyLit "現金", 250478, 1215170, 250169, 1215346⟩,
         ⟨2, pyLit "u1", pyLit "台北車站", pyLit "台大", sPooled, pyLit "08:00",
            pyLit "現金", 250478, 1215170, 250169, 1215346⟩]⟩
    ∧ timeValue (pyLit "soon") = none := by decide

/-- C5 (amended): when the first scanned pooled candidate carries an
unparseable stored time, the completion step aborts after the insert: the
exception escapes, no confirmation reply is sent, and the draft is left in
the Session Store (with its payment set). -/
theorem C5_unparseable_candidate_aborts_completion
    (uid text : PyStr) (st : BotState) (d : Draft) (t rt : PyStr) (ut : Int)
    (c : RideRecord) (rest : List RideRecord)
    (hpre : pyStartsWith sPay (pyTrim text) = true)
    (hd : getState st.user_states uid = some d)
    (ht : d.time = some t) (hrt : d.ride_type = some rt)
    (htv : timeValue t = some ut)
    (hcand : pooledOthers st.records uid = c :: rest)
    (hbad : timeValue c.time = none) :
    handle_message false uid text st =
      .exn ⟨setState st.user_states uid
              { d with payment := some (pyTrim (pyRemoveAll sPay (pyTrim text))) },
            st.records ++
              [⟨st.records.length + 1, uid, d.origin, d.destination, rt, t,
                pyTrim (pyRemoveAll sPay (pyTrim text)),
                d.origin_lat, d.origin_lon, d.dest_lat, d.dest_lon⟩]⟩ := by
  obtain ⟨o, de, olat, olon, dlat, dlon, drt, dtm, dpay⟩ := d
  replace ht : dtm = some t := ht
  replace hrt : drt = some rt := hrt
  subst ht; subst hrt
  rw [handle_message_pay_dispatch hpre]
  simp only [payBranch, hd]
  rw [if_neg (by simp)]
  rw [pooledOthers_append_self _ _ _ rfl, hcand]
  rw [htv]
  simp only [matchLoop, hbad]

/-- C5 witness. -/
theorem C5_unparseable_candidate_aborts_completion_witness :
    handle_message false (pyLit "w5") (pyLit "我使用 悠遊卡")
        ⟨[(pyLit "w5", ⟨pyLit "台大", pyLit "台北車站", 250169, 1215346, 250478, 1215170,
            some sPooled, some (pyLit "07:45"), none⟩)],
         [⟨1, pyLit "w5b", pyLit "台大", pyLit "台北車站", sPooled, pyLit "七點",
            pyLit "悠遊卡", 250169, 1215346, 250478, 1215170⟩]⟩ =
      .exn ⟨[(pyLit "w5", ⟨pyLit "台大", pyLit "台北車站", 250169, 1215346, 250478, 1215170,
            some sPooled, some (pyLit "07:45"),
            some (pyTrim (pyRemoveAll sPay (pyTrim (pyLit "我使用 悠遊卡"))))⟩)],
        [⟨1, pyLit "w5b", pyLit "台大", pyLit "台北車站", sPooled, pyLit "七點",
            pyLit "悠遊卡", 250169, 1215346, 250478, 1215170⟩] ++
        [⟨2, pyLit "w5", pyLit "台大", pyLit "台北車站", sPooled, pyLit "07:45",
            pyTrim (pyRemoveAll sPay (pyTrim (pyLit "我使用 悠遊卡"))),
            250169, 1215346, 250478, 1215170⟩]⟩ :=
  C5_unparseable_candidate_aborts_completion (pyLit "w5") (pyLit "我使用 悠遊卡")
    ⟨[(pyLit "w5", ⟨pyLit "台大", pyLit "台北車站", 250169, 1215346, 250478, 1215170,
        some sPooled, some (pyLit "07:45"), none⟩)],
     [⟨1, pyLit "w5b", pyLit "台大", pyLit "台北車站", sPooled, pyLit "七點",
        pyLit "悠遊卡", 250169, 1215346, 250478, 1215170⟩]⟩
    ⟨pyLit "台大", pyLit "台北車站", 250169, 1215346, 250478, 1215170,
        some sPooled, some (pyLit "07:45"), none⟩
    (pyLit "07:45") sPooled 465
    ⟨1, pyLit "w5b", pyLit "台大", pyLit "台北車站", sPooled, pyLit "七點",
        pyLit "悠遊卡", 250169, 1215346, 250478, 1215170⟩ []
    (by decide) (by decide) rfl rfl (by decide) (by decide) (by decide)

/-- C6 counterexample: a user whose draft already has a mode (HAVE_MODE)
sends a plain route message; the handler replaces the draft with a fresh
route-only draft (mode erased) instead of leaving it untouched. -/
theorem C6_counterexample_route_resets_draft :
    handle_message false (pyLit "u1") (pyLit "台大 到 松山機場")
        ⟨[(pyLit "u1", ⟨pyLit "台北車站", pyLit "台大", 250478, 1215170, 250169, 1215346,
            some sPooled, some (pyLit "08:00"), none⟩)], []⟩ =
      .ok ⟨[(pyLit "u1", routeDraft (pyLit "台大") (pyLit "松山機場"))], []⟩
        (routeReply (pyLit "台大") (pyLit "松山機場"))
    ∧ (routeDraft (pyLit "台大") (pyLit "松山機場")).ride_type = none
    ∧ some sPooled ≠ (none : Option PyStr) := by decide

/-- C6 (amended): the route transition is not gated on the session state —
for ANY existing draft (HAVE_ROUTE, HAVE_MODE or HAVE_TIME included), a
message of the form `a 到 b` containing neither 我預約 nor 我使用 replaces
the draft of the user with a fresh route-only draft (mode, time, payment all
absent). -/
theorem C6_route_message_replaces_any_draft
    (ins : Bool) (uid a b : PyStr) (st : BotState) (d : Draft)
    (hd : getState st.user_states uid = some d)
    (ha : sToSep ∉ a) (hb : sToSep ∉ b)
    (h1 : pyIn sReserve (a ++ sToSep :: b) = false)
    (h2 : pyIn sPay (a ++ sToSep :: b) = false) :
    handle_message ins uid (a ++ sToSep :: b) st =
      .ok ⟨setState st.user_states uid (routeDraft (pyTrim a) (pyTrim b)), st.records⟩
        (routeReply (pyTrim a) (pyTrim b))
    ∧ getState (setState st.user_states uid (routeDraft (pyTrim a) (pyTrim b))) uid =
        some (routeDraft (pyTrim a) (pyTrim b))
    ∧ (routeDraft (pyTrim a) (pyTrim b)).ride_type = none
    ∧ (routeDraft (pyTrim a) (pyTrim b)).time = none :=
  ⟨route_general ha hb h1 h2, getState_setState _ _ _, rfl, rfl⟩

/-- C6 witness. -/
theorem C6_route_message_replaces_any_draft_witness :
    handle_message false (pyLit "w6") (pyLit "松山機場" ++ sToSep :: pyLit "台大")
        ⟨[(pyLit "w6", ⟨pyLit "台北車站", pyLit "台大", 250478, 1215170, 250169, 1215346,
            some sPooled, some (pyLit "08:00"), none⟩)], []⟩ =
      .ok ⟨[(pyLit "w6", routeDraft (pyTrim (pyLit "松山機場")) (pyTrim (pyLit "台大")))], []⟩
        (routeReply (pyTrim (pyLit "松山機場")) (pyTrim (pyLit "台大"))) :=
  (C6_route_message_replaces_any_draft false (pyLit "w6") (pyLit "松山機場") (pyLit "台大")
    ⟨[(pyLit "w6", ⟨pyLit "台北車站", pyLit "台大", 250478, 1215170, 250169, 1215346,
        some sPooled, some (pyLit "08:00"), none⟩)], []⟩
    ⟨pyLit "台北車站", pyLit "台大", 250478, 1215170, 250169, 1215346,
        some sPooled, some (pyLit "08:00"), none⟩
    (by decide) (by decide) (by decide) (by decide) (by decide)).1

/-- C7: a message `a到b` (with `到` in neither part) that contains neither
我預約 nor 我使用, sent by a user with no draft, creates a HAVE_ROUTE draft
whose origin and destination are the two parts stripped of surrounding
whitespace; and any input containing one of those verbs is never classified
as a route message. -/
theorem C7_route_split_and_verb_exclusion
    (ins : Bool) (uid a b : PyStr) (st : BotState)
    (hnodraft : getState st.user_states uid = none)
    (ha : sToSep ∉ a) (hb : sToSep ∉ b)
    (h1 : pyIn sReserve (a ++ sToSep :: b) = false)
    (h2 : pyIn sPay (a ++ sToSep :: b) = false) :
    handle_message ins uid (a ++ sToSep :: b) st =
      .ok ⟨setState st.user_states uid (routeDraft (pyTrim a) (pyTrim b)), st.records⟩
        (routeReply (pyTrim a) (pyTrim b))
    ∧ getState (setState st.user_states uid (routeDraft (pyTrim a) (pyTrim b))) uid =
        some (routeDraft (pyTrim a) (pyTrim b))
    ∧ (routeDraft (pyTrim a) (pyTrim b)).origin = pyTrim a
    ∧ (routeDraft (pyTrim a) (pyTrim b)).destination = pyTrim b
    ∧ (∀ s : PyStr, pyIn sReserve s = true ∨ pyIn sPay s = true →
        isRouteInput s = false) := by
  refine ⟨route_general ha hb h1 h2, getState_setState _ _ _, rfl, rfl, ?_⟩
  rintro s (h | h) <;> simp [isRouteInput, h]

/-- C7 witness. -/
theorem C7_route_split_and_verb_exclusion_witness :
    handle_message false (pyLit "w7") (pyLit " 台北車站 " ++ sToSep :: pyLit " 松山機場 ")
        ⟨[], []⟩ =
      .ok ⟨[(pyLit "w7", routeDraft (pyTrim (pyLit " 台北車站 ")) (pyTrim (pyLit " 松山機場 ")))],
          []⟩
        (routeReply (pyTrim (pyLit " 台北車站 ")) (pyTrim (pyLit " 松山機場 ")))
    ∧ pyTrim (pyLit " 台北車站 ") = pyLit "台北車站"
    ∧ pyTrim (pyLit " 松山機場 ") = pyLit "松山機場" :=
  ⟨(C7_route_split_and_verb_exclusion false (pyLit "w7") (pyLit " 台北車站 ")
      (pyLit " 松山機場 ") ⟨[], []⟩ rfl (by decide) (by decide) (by decide) (by decide)).1,
   by decide, by decide⟩

/-- C8: every out-of-order input — a mode choice without a draft, a 我預約
message without a mode, a 我使用 message without a time — is answered with
its corrective prompt while the whole state (drafts and repository alike)
is returned unchanged. -/
theorem C8_out_of_order_inputs_leave_state_unchanged
    (ins : Bool) (uid text : PyStr) (st : BotState) :
    (((pyTrim text = sChoosePooled ∨ pyTrim text = sChooseSolo) ∧
        getState st.user_states uid = none) →
      handle_message ins uid text st = .ok st rNeedRoute)
    ∧ ((pyStartsWith sReserve (pyTrim text) = true ∧
        (getState st.user_states uid = none ∨
          ∃ d, getState st.user_states uid = some d ∧ d.ride_type = none)) →
      handle_message ins uid text st = .ok st rNeedRouteAndMode)
    ∧ ((pyStartsWith sPay (pyTrim text) = true ∧
        (getState st.user_states uid = none ∨
          ∃ d, getState st.user_states uid = some d ∧ d.time = none)) →
      handle_message ins uid text st = .ok st rNeedEarlierSteps) := by
  refine ⟨?_, ?_, ?_⟩
  · rintro ⟨hmode, hnone⟩
    have hq : ¬ pyTrim text = sQuery := by
      rcases hmode with h | h <;> rw [h] <;> decide
    have hr : ¬ isRouteInput (pyTrim text) = true := by
      rcases hmode with h | h <;> rw [h] <;> decide
    simp only [handle_message]
    rw [if_neg hq, if_neg hr, if_pos hmode]
    simp only [modeBranch, hnone]
  · rintro ⟨hpre, hmiss⟩
    rw [handle_message_time_dispatch hpre]
    rcases hmiss with hnone | ⟨d, hd, hrt⟩
    · simp only [timeBranch, hnone]
    · simp only [timeBranch, hd, hrt]
  · rintro ⟨hpre, hmiss⟩
    rw [handle_message_pay_dispatch hpre]
    rcases hmiss with hnone | ⟨d, hd, htm⟩
    · simp only [payBranch, hnone]
    · simp only [payBranch, hd, htm]

/-- C8 witness. -/
theorem C8_out_of_order_inputs_witness :
    handle_message false (pyLit "w8") sChooseSolo ⟨[], []⟩ = .ok ⟨[], []⟩ rNeedRoute
    ∧ handle_message false (pyLit "w8") (pyLit "我預約 15:30") ⟨[], []⟩ =
        .ok ⟨[], []⟩ rNeedRouteAndMode
    ∧ handle_message false (pyLit "w8") (pyLit "我使用 現金") ⟨[], []⟩ =
        .ok ⟨[], []⟩ rNeedEarlierSteps := by
  refine ⟨?_, ?_, ?_⟩
  · exact (C8_out_of_order_inputs_leave_state_unchanged false (pyLit "w8") sChooseSolo
      ⟨[], []⟩).1 ⟨Or.inr (by decide), rfl⟩
  · exact (C8_out_of_order_inputs_leave_state_unchanged false (pyLit "w8")
      (pyLit "我預約 15:30") ⟨[], []⟩).2.1 ⟨by decide, Or.inl rfl⟩
  · exact (C8_out_of_order_inputs_leave_state_unchanged false (pyLit "w8")
      (pyLit "我使用 現金") ⟨[], []⟩).2.2 ⟨by decide, Or.inl rfl⟩

/-- C9: the location resolver returns the `(0, 0)` sentinel for every name
outside its three-entry table (it is a total function — `dict.get` cannot
raise), and the route message "Mars Base 到 台大" from a fresh session
still yields a HAVE_ROUTE draft whose origin coordinates are `(0, 0)`. -/
theorem C9_unknown_location_sentinel (loc : PyStr)
    (h1 : loc ≠ pyLit "台北車站") (h2 : loc ≠ pyLit "松山機場")
    (h3 : loc ≠ pyLit "台大") :
    get_coordinates loc = (0, 0)
    ∧ handle_message false (pyLit "u9") (pyLit "Mars Base 到 台大") ⟨[], []⟩ =
        .ok ⟨[(pyLit "u9", routeDraft (pyLit "Mars Base") (pyLit "台大"))], []⟩
          (routeReply (pyLit "Mars Base") (pyLit "台大"))
    ∧ (routeDraft (pyLit "Mars Base") (pyLit "台大")).origin_lat = 0
    ∧ (routeDraft (pyLit "Mars Base") (pyLit "台大")).origin_lon = 0 := by
  refine ⟨?_, by decide, by decide, by decide⟩
  unfold get_coordinates
  rw [if_neg h1, if_neg h2, if_neg h3]

/-- C9 witness. -/
theorem C9_unknown_location_sentinel_witness :
    get_coordinates (pyLit "Mars Base") = (0, 0) :=
  (C9_unknown_location_sentinel (pyLit "Mars Base")
    (by decide) (by decide) (by decide)).1

/-- C10 counterexample: in HAVE_MODE, the input 我預約我預約 stores the time
"" (the source removes EVERY occurrence of 我預約, not just the leading
verb), while the stripped remainder after the prefix is 我預約 itself — so
"stores the remaining text verbatim (stripped)" fails. -/
theorem C10_counterexample_replace_removes_all_occurrences :
    handle_message false (pyLit "u1") (pyLit "我預約我預約")
        ⟨[(pyLit "u1", ⟨pyLit "台北車站", pyLit "台大", 250478, 1215170, 250169, 1215346,
            some sPooled, none, none⟩)], []⟩ =
      .ok ⟨[(pyLit "u1", ⟨pyLit "台北車站", pyLit "台大", 250478, 1215170, 250169, 1215346,
            some sPooled, some [], none⟩)], []⟩
        (timeReply [])
    ∧ pyTrim (List.drop sReserve.length (pyLit "我預約我預約")) = sReserve
    ∧ ([] : PyStr) ≠ sReserve := by decide

/-- C10 (amended): in HAVE_MODE every 我預約-prefixed input advances the
session to HAVE_TIME and stores, with no format validation, the input with
every occurrence of 我預約 removed and then stripped — which coincides with
the stripped remainder after the verb whenever that remainder contains no
further 我預約. -/
theorem C10_time_entry_stores_stripped_remainder
    (ins : Bool) (uid text : PyStr) (st : BotState) (d : Draft) (rt : PyStr)
    (hpre : pyStartsWith sReserve (pyTrim text) = true)
    (hd : getState st.user_states uid = some d)
    (hrt : d.ride_type = some rt) :
    handle_message ins uid text st =
      .ok ⟨setState st.user_states uid
            { d with time := some (pyTrim (pyRemoveAll sReserve (pyTrim text))) },
          st.records⟩
        (timeReply (pyTrim (pyRemoveAll sReserve (pyTrim text))))
    ∧ getState (setState st.user_states uid
          { d with time := some (pyTrim (pyRemoveAll sReserve (pyTrim text))) }) uid =
        some { d with time := some (pyTrim (pyRemoveAll sReserve (pyTrim text))) }
    ∧ (pyIn sReserve (List.drop sReserve.length (pyTrim text)) = false →
        pyTrim (pyRemoveAll sReserve (pyTrim text)) =
          pyTrim (List.drop sReserve.length (pyTrim text))) := by
  refine ⟨?_, getState_setState _ _ _, ?_⟩
  · obtain ⟨o, de, olat, olon, dlat, dlon, drt, dtm, dpay⟩ := d
    replace hrt : drt = some rt := hrt
    subst hrt
    rw [handle_message_time_dispatch hpre]
    simp only [timeBranch, hd]
  · intro hno
    obtain ⟨r, hr⟩ := (pyStartsWith_iff _ _).mp hpre
    rw [hr, List.drop_left] at hno ⊢
    rw [pyRemoveAll_of_single_occ (by decide) hno]

/-- C10 witness: the empty remainder (bare 我預約) is accepted and stored
as the empty time string. -/
theorem C10_time_entry_stores_stripped_remainder_witness :
    handle_message false (pyLit "w10") (pyLit "我預約")
        ⟨[(pyLit "w10", ⟨pyLit "台大", pyLit "松山機場", 250169, 1215346, 250634, 1215520,
            some sPooled, none, none⟩)], []⟩ =
      .ok ⟨[(pyLit "w10", ⟨pyLit "台大", pyLit "松山機場", 250169, 1215346, 250634, 1215520,
            some sPooled, some (pyTrim (pyRemoveAll sReserve (pyTrim (pyLit "我預約")))),
            none⟩)], []⟩
        (timeReply (pyTrim (pyRemoveAll sReserve (pyTrim (pyLit "我預約")))))
    ∧ pyTrim (pyRemoveAll sReserve (pyTrim (pyLit "我預約"))) = [] :=
  ⟨(C10_time_entry_stores_stripped_remainder false (pyLit "w10") (pyLit "我預約")
      ⟨[(pyLit "w10", ⟨pyLit "台大", pyLit "松山機場", 250169, 1215346, 250634, 1215520,
          some sPooled, none, none⟩)], []⟩
      ⟨pyLit "台大", pyLit "松山機場", 250169, 1215346, 250634, 1215520,
          some sPooled, none, none⟩
      sPooled (by decide) rfl rfl).1,
   by decide⟩
